import Mathlib

/-!
Verification of the nfs-shared-csi driver's parameter-resolution and
mount-lifecycle logic (package `pkg/nfs`): `validateVolumeCapability`,
`validateSubPath`, `getSubPath`, `getVolumeSource`, `CreateVolume`,
`NodePublishVolume` and `NodeUnpublishVolume`, embedded as executable Lean
definitions mirroring the Go source.

Strings are Lean `String`s; Go byte lengths are modelled by `byteLen`
(UTF-8 byte count, matching Go's `len` on strings); Go `map[string]string`
indexing (zero value `""` on a missing key) is modelled by `ctxGet` over an
association list.
-/

namespace NfsCsi

/-- Go `len(s)` for a string: the UTF-8 byte length. -/
def byteLen (s : String) : Nat :=
  (s.data.map Char.utf8Size).sum

/-- Go `strings.HasPrefix s p`. -/
def strStarts (s p : String) : Bool :=
  p.data.isPrefixOf s.data

/-- Go `strings.HasSuffix s p`. -/
def strEnds (s p : String) : Bool :=
  p.data.reverse.isPrefixOf s.data.reverse

/-- Go `strings.TrimPrefix s p`: drop one leading occurrence of `p`, if present. -/
def strTrimL (s p : String) : String :=
  if strStarts s p then String.mk (s.data.drop p.data.length) else s

/-- Go `strings.TrimSuffix s p`: drop one trailing occurrence of `p`, if present. -/
def strTrimR (s p : String) : String :=
  if strEnds s p then String.mk (s.data.take (s.data.length - p.data.length)) else s

/-- Go `strings.Contains s sub`: substring containment. -/
def strHas (s sub : String) : Bool :=
  s.data.tails.any (fun t => sub.data.isPrefixOf t)

/-- Go `strings.Trim s "/"`: drop every leading and trailing `/`. -/
def strTrimC (s : String) (c : Char) : String :=
  String.mk (((s.data.dropWhile (· = c)).reverse.dropWhile (· = c)).reverse)

/-- Split a character list on `/`, keeping empty segments
(the segment view of Go `filepath.Clean`'s left-to-right scan:
consecutive or leading separators yield empty segments, which the
scan skips). -/
def splitSep : List Char → List (List Char)
  | [] => [[]]
  | c :: rest =>
    if c = '/' then [] :: splitSep rest
    else
      match splitSep rest with
      | s :: ss => (c :: s) :: ss
      | [] => [[c]]

/-- The element loop of Go `filepath.Clean` (Unix): process the segments in
order against an output stack `acc` (most recent element first).
An empty or `.` segment is skipped; a `..` segment pops the last real
element when one exists, is appended when the path is not rooted and
only `..` elements (or nothing) have been kept, and is dropped when the
path is rooted and there is nothing to pop; any other segment is pushed. -/
def cleanSegs (rooted : Bool) : List (List Char) → List (List Char) → List (List Char)
  | [], acc => acc
  | seg :: rest, acc =>
    if seg = [] ∨ seg = ['.'] then cleanSegs rooted rest acc
    else if seg = ['.', '.'] then
      match acc with
      | s :: acc2 =>
        if s = ['.', '.'] then cleanSegs rooted rest (['.', '.'] :: acc)
        else cleanSegs rooted rest acc2
      | [] => cleanSegs rooted rest (if rooted then [] else [['.', '.']])
    else cleanSegs rooted rest (seg :: acc)

/-- Join segments with `/`. -/
def joinSegs : List (List Char) → List Char
  | [] => []
  | [s] => s
  | s :: rest => s ++ '/' :: joinSegs rest

/-- Go `filepath.Clean` on Unix: lexical path normalization.
Empty input yields `.`; a rooted result keeps its leading `/`; an
unrooted result that ends up empty becomes `.`. -/
def filepathClean (path : String) : String :=
  if path = "" then "."
  else
    let rooted := strStarts path "/"
    let outRev := cleanSegs rooted (splitSep path.data) []
    let joined := String.mk (joinSegs outRev.reverse)
    if rooted then "/" ++ joined
    else if joined = "" then "." else joined

/-- Maximum allowed length for subPath (`maxSubPathLength` in the source). -/
def maxSubPathLength : Nat := 4096

/-- The distinct failure reasons of `validateSubPath` (the Go function
returns a distinct error message for each). -/
inductive SubPathErr where
  | tooLong
  | traversal
  | invalidComponent
  | nullByte
deriving DecidableEq, Repr

/-- Go `validateSubPath` (utils.go): empty is accepted; then the byte-length
bound, the traversal check on the cleaned path with its leading slash
stripped, the cleaned-vs-original normalization comparison, and the NUL
byte check, in source order.  `none` means the Go function returned `nil`. -/
def validateSubPath (subPath : String) : Option SubPathErr :=
  if subPath = "" then none
  else if maxSubPathLength < byteLen subPath then some .tooLong
  else
    let cleaned := filepathClean subPath
    let originalNoLeadingSlash := strTrimL subPath "/"
    let cleanedNoLeadingSlash := strTrimL cleaned "/"
    if strStarts cleanedNoLeadingSlash ".." || strHas cleanedNoLeadingSlash "/.." then
      some .traversal
    else
      let originalNormalized := strTrimC originalNoLeadingSlash '/'
      let cleanedNormalized := strTrimC cleanedNoLeadingSlash '/'
      if originalNormalized ≠ cleanedNormalized ∧ originalNormalized ≠ "" ∧
          ¬(originalNormalized = "." ∧ cleanedNormalized = "") then
        some .invalidComponent
      else if strHas subPath (String.mk ['\x00']) then some .nullByte
      else none

/-! ## Volume capabilities (CSI data model and `validateVolumeCapability`) -/

/-- CSI access-mode enum values (proto numbering); the Go field is an
`int32`, so the mode is an arbitrary integer. -/
def SINGLE_NODE_WRITER : Int := 1
/-- CSI access-mode enum value. -/
def SINGLE_NODE_READER_ONLY : Int := 2
/-- CSI access-mode enum value. -/
def MULTI_NODE_READER_ONLY : Int := 3
/-- CSI access-mode enum value. -/
def MULTI_NODE_SINGLE_WRITER : Int := 4
/-- CSI access-mode enum value. -/
def MULTI_NODE_MULTI_WRITER : Int := 5

/-- The CSI `access_type` oneof: a mount volume (carrying its mount flags,
the only field the driver reads) or a block volume. -/
inductive AccessType where
  | mount (mountFlags : List String)
  | block
deriving DecidableEq, Repr

/-- `csi.VolumeCapability`: both fields are pointers in Go, hence `Option`. -/
structure VolumeCapability where
  accessMode : Option Int
  accessType : Option AccessType
deriving DecidableEq, Repr

/-- The failure branches of Go `validateVolumeCapability`; each one is
returned as a gRPC `InvalidArgument` status. -/
inductive CapErr where
  | nilCapability
  | nilAccessMode
  | unsupportedMode
  | nilAccessType
  | notMountType
deriving DecidableEq, Repr

/-- The five-way `switch` on the access mode in Go `validateVolumeCapability`. -/
def isSupportedMode (m : Int) : Bool :=
  m = SINGLE_NODE_WRITER || m = SINGLE_NODE_READER_ONLY || m = MULTI_NODE_READER_ONLY ||
    m = MULTI_NODE_SINGLE_WRITER || m = MULTI_NODE_MULTI_WRITER

/-- Go `validateVolumeCapability` (utils.go): nil capability, nil access
mode, unsupported mode, nil access type, and non-mount access type are
rejected in that order; `none` means the Go function returned `nil`. -/
def validateVolumeCapability : Option VolumeCapability → Option CapErr
  | none => some .nilCapability
  | some cap =>
    match cap.accessMode with
    | none => some .nilAccessMode
    | some mode =>
      if !isSupportedMode mode then some .unsupportedMode
      else
        match cap.accessType with
        | none => some .nilAccessType
        | some (.mount _) => none
        | some .block => some .notMountType

/-! ## Parameter resolution (`getSubPath`, `getVolumeSource`, `CreateVolume`) -/

/-- Volume-context / parameter keys (`driver.go` constants). -/
def ParamServer : String := "server"
/-- Volume-context / parameter key for the exported share. -/
def ParamShare : String := "share"
/-- Volume-context / parameter key for the sub-path. -/
def ParamSubPath : String := "subPath"
/-- The key under which the external-provisioner passes the PVC
annotations as a JSON blob. -/
def AnnotationsKey : String := "csi.storage.k8s.io/pvc/annotations"

/-- Go `map[string]string`, as an association list. -/
abbrev Ctx := List (String × String)

/-- Go map indexing `m[k]`: the zero value `""` when the key is absent. -/
def ctxGet (ctx : Ctx) (k : String) : String :=
  match List.lookup k ctx with
  | some v => v
  | none => ""

/-- Go `getSubPath` (utils.go): the explicit `subPath` entry of the volume
context when non-empty, else the sub-path extracted from the non-empty
annotation JSON blob, else `""`.  The JSON extraction
(`parseAnnotationSubPath`, which returns `""` on malformed JSON or a
missing key) is abstracted as the function argument `parseAnn`; every
theorem below quantifies over it. -/
def getSubPath (parseAnn : String → String) (volumeContext : Ctx) : String :=
  let subPath := ctxGet volumeContext ParamSubPath
  if subPath ≠ "" then subPath
  else
    let annotations := ctxGet volumeContext AnnotationsKey
    if annotations ≠ "" then
      let fromAnn := parseAnn annotations
      if fromAnn ≠ "" then fromAnn else ""
    else ""

/-- The failure branches of Go `getVolumeSource` (utils.go). -/
inductive VolSrcErr where
  | serverRequired
  | shareRequired
  | invalidSubPath (e : SubPathErr)
deriving DecidableEq, Repr

/-- Go `getVolumeSource` (utils.go): require a non-empty `server` and
`share`, prepend `/` to the share when missing, and when a sub-path is
present validate it and merge it onto the share
(`TrimSuffix(share,"/") + "/" + TrimPrefix(subPath,"/")`). -/
def getVolumeSource (parseAnn : String → String) (volumeContext : Ctx) :
    Except VolSrcErr (String × String) :=
  let server := ctxGet volumeContext ParamServer
  if server = "" then .error .serverRequired
  else
    let share := ctxGet volumeContext ParamShare
    if share = "" then .error .shareRequired
    else
      let share := if !strStarts share "/" then "/" ++ share else share
      let subPath := getSubPath parseAnn volumeContext
      if subPath ≠ "" then
        match validateSubPath subPath with
        | some e => .error (.invalidSubPath e)
        | none => .ok (server, strTrimR share "/" ++ "/" ++ strTrimL subPath "/")
      else .ok (server, share)

/-- gRPC status codes used by the driver's error paths. -/
inductive Code where
  | invalidArgument
  | internal
deriving DecidableEq, Repr

/-- The sub-path computation inlined in Go `CreateVolume` (controller.go):
the `subPath` parameter, else the value parsed from a non-empty
annotation blob. -/
def createVolumeSubPath (parseAnn : String → String) (parameters : Ctx) : String :=
  let subPath := ctxGet parameters ParamSubPath
  if subPath = "" then
    let annotations := ctxGet parameters AnnotationsKey
    if annotations ≠ "" then parseAnn annotations else subPath
  else subPath

/-- `csi.CreateVolumeRequest`, restricted to the fields `CreateVolume` reads. -/
structure CreateVolumeRequest where
  name : String
  volumeCapabilities : List (Option VolumeCapability)
  parameters : Ctx

/-- `csi.CreateVolumeResponse`'s volume. -/
structure CreatedVolume where
  volumeId : String
  volumeContext : Ctx
deriving DecidableEq, Repr

/-- Go `CreateVolume` (controller.go): reject an empty name, an empty or
invalid capability list, a missing `server` or `share`, and an invalid
non-empty sub-path — each with `InvalidArgument`; otherwise answer with
`volumeID = name` and a context of `server`, `share`, and the sub-path
when non-empty.  (Go returns the first failing capability's error; every
capability error carries code `InvalidArgument`, which is all this model
records.) -/
def createVolume (parseAnn : String → String) (req : CreateVolumeRequest) :
    Except Code CreatedVolume :=
  if req.name = "" then .error .invalidArgument
  else if req.volumeCapabilities = [] then .error .invalidArgument
  else if req.volumeCapabilities.any (fun c => (validateVolumeCapability c).isSome) then
    .error .invalidArgument
  else
    let server := ctxGet req.parameters ParamServer
    let share := ctxGet req.parameters ParamShare
    let subPath := createVolumeSubPath parseAnn req.parameters
    if server = "" then .error .invalidArgument
    else if share = "" then .error .invalidArgument
    else if subPath ≠ "" ∧ (validateSubPath subPath).isSome then .error .invalidArgument
    else
      .ok { volumeId := req.name,
            volumeContext :=
              (ParamServer, server) :: (ParamShare, share) ::
                (if subPath ≠ "" then [(ParamSubPath, subPath)] else []) }

/-! ## Node mount lifecycle (`NodePublishVolume`, `NodeUnpublishVolume`)

The OS / mount-utility layer is modelled as an oracle giving the outcome
of each operation the handler may attempt on the request's target path;
the handler additionally records the operations it performed, in order,
as a trace of `Action`s. -/

/-- Outcome classification of a failed OS call: Go only distinguishes
errors satisfying `os.IsNotExist` from the rest. -/
inductive FsErr where
  | notExist
  | other
deriving DecidableEq, Repr

deriving instance DecidableEq for Except

/-- Results the environment gives for each OS / mounter call on the
request's target path: `os.MkdirAll`, `IsLikelyNotMountPoint` (`.ok b`
with `b` = "not a mount point", or an error), `Mount`, `os.Remove`, and
`mount.CleanupMountPoint`; `none` means the call succeeds. -/
structure NodeEnv where
  mkdirAllRes : Option FsErr
  checkMntRes : Except FsErr Bool
  mountRes : Option FsErr
  removeRes : Option FsErr
  cleanupRes : Option FsErr
deriving DecidableEq, Repr

/-- The externally visible operations a node handler performs. -/
inductive Action where
  | mkdirAll (path : String)
  | mountFs (source target fstype : String) (options : List String)
  | removePath (path : String)
  | cleanupMnt (path : String)
deriving DecidableEq, Repr

/-- Whether an action is a mount of a filesystem. -/
def Action.isMountFs : Action → Bool
  | .mountFs _ _ _ _ => true
  | _ => false

/-- `csi.NodePublishVolumeRequest`, restricted to the fields the handler reads. -/
structure NodePublishRequest where
  volumeId : String
  targetPath : String
  volumeCapability : Option VolumeCapability
  volumeContext : Ctx
  readonly : Bool

/-- The mount flags Go reads via `cap.GetMount().GetMountFlags()` (empty
when the capability is absent or not a mount capability). -/
def capMountFlags : Option VolumeCapability → List String
  | some { accessType := some (.mount flags), .. } => flags
  | _ => []

/-- Go `NodePublishVolume` (node.go): validate IDs and capability, resolve
the volume source (failure is `InvalidArgument`), `MkdirAll` the target
(failure is `Internal`), query the mount state (a non-`IsNotExist` error
is `Internal`; `IsNotExist` counts as not mounted), return success at
once when already a mount point, else mount `server:share` with options
`nolock` ++ capability mount flags ++ `ro` when read-only (failure is
`Internal`).  Returns the gRPC outcome and the trace of attempted
operations. -/
def nodePublishVolume (parseAnn : String → String) (env : NodeEnv)
    (req : NodePublishRequest) : Except Code Unit × List Action :=
  if req.volumeId = "" then (.error .invalidArgument, [])
  else if req.targetPath = "" then (.error .invalidArgument, [])
  else if (validateVolumeCapability req.volumeCapability).isSome then
    (.error .invalidArgument, [])
  else
    match getVolumeSource parseAnn req.volumeContext with
    | .error _ => (.error .invalidArgument, [])
    | .ok (server, share) =>
      let source := server ++ ":" ++ share
      match env.mkdirAllRes with
      | some _ => (.error .internal, [.mkdirAll req.targetPath])
      | none =>
        let notMnt : Except Code Bool :=
          match env.checkMntRes with
          | .ok b => .ok b
          | .error e => if e = .notExist then .ok true else .error .internal
        match notMnt with
        | .error c => (.error c, [.mkdirAll req.targetPath])
        | .ok notMnt =>
          if !notMnt then (.ok (), [.mkdirAll req.targetPath])
          else
            let mountOptions := "nolock" :: capMountFlags req.volumeCapability ++
              (if req.readonly then ["ro"] else [])
            let tr := [.mkdirAll req.targetPath,
              .mountFs source req.targetPath "nfs" mountOptions]
            match env.mountRes with
            | some _ => (.error .internal, tr)
            | none => (.ok (), tr)

/-- `csi.NodeUnpublishVolumeRequest`. -/
structure NodeUnpublishRequest where
  volumeId : String
  targetPath : String

/-- Go `NodeUnpublishVolume` (node.go): validate IDs, query the mount
state (`IsNotExist` means nothing to do — success; any other error is
`Internal`); when not mounted, call `os.Remove` on the stale directory
but return success whatever its outcome (a failure is only logged as a
warning); when mounted, `CleanupMountPoint` (failure is `Internal`). -/
def nodeUnpublishVolume (env : NodeEnv) (req : NodeUnpublishRequest) :
    Except Code Unit × List Action :=
  if req.volumeId = "" then (.error .invalidArgument, [])
  else if req.targetPath = "" then (.error .invalidArgument, [])
  else
    match env.checkMntRes with
    | .error e =>
      if e = .notExist then (.ok (), [])
      else (.error .internal, [])
    | .ok notMnt =>
      if notMnt then (.ok (), [.removePath req.targetPath])
      else
        match env.cleanupRes with
        | some _ => (.error .internal, [.cleanupMnt req.targetPath])
        | none => (.ok (), [.cleanupMnt req.targetPath])

/-- Two successive publish calls for the same request against the same
environment (legitimate whenever the first call performed no
state-changing mount), with the concatenated trace. -/
def publishTwice (parseAnn : String → String) (env : NodeEnv)
    (req : NodePublishRequest) :
    (Except Code Unit × Except Code Unit) × List Action :=
  let r1 := nodePublishVolume parseAnn env req
  let r2 := nodePublishVolume parseAnn env req
  ((r1.1, r2.1), r1.2 ++ r2.2)

/-! ## Helper lemmas -/

/-- Substring containment is antitone in the needle: a substring of `s`
that extends `p` witnesses `p` as well. -/
theorem strHas_mono (s p q : String) (hpq : p.data.isPrefixOf q.data = true)
    (h : strHas s q = true) : strHas s p = true := by
  unfold strHas at h ⊢
  rw [List.any_eq_true] at h ⊢
  obtain ⟨t, ht, hq⟩ := h
  refine ⟨t, ht, ?_⟩
  rw [List.isPrefixOf_iff_prefix] at hpq hq ⊢
  exact hpq.trans hq

/-- The claim-side traversal condition on a sub-path: its lexical
normalization, with a leading slash stripped, starts with `..` or
contains a `/../` sequence. -/
def cleanedHasDotDot (s : String) : Bool :=
  let c := strTrimL (filepathClean s) "/"
  strStarts c ".." || strHas c "/../"

/-- A sub-path whose normalization retains a `..` segment never passes
`validateSubPath`. -/
theorem validateSubPath_ne_none_of_dotdot (s : String)
    (h : cleanedHasDotDot s = true) : validateSubPath s ≠ none := by
  by_cases hs : s = ""
  · subst hs; exact absurd h (by decide)
  · by_cases hlen : maxSubPathLength < byteLen s
    · simp [validateSubPath, hs, hlen]
    · have hcond : (strStarts (strTrimL (filepathClean s) "/") ".." ||
          strHas (strTrimL (filepathClean s) "/") "/..") = true := by
        unfold cleanedHasDotDot at h
        rcases Bool.or_eq_true_iff.mp h with h1 | h2
        · exact Bool.or_eq_true_iff.mpr (Or.inl h1)
        · exact Bool.or_eq_true_iff.mpr
            (Or.inr (strHas_mono _ "/.." "/../" (by decide) h2))
      simp [validateSubPath, hs, hlen, hcond]

/-- A string starts with `/` exactly when its first character is `/`. -/
theorem strStarts_slash_iff (s : String) :
    strStarts s "/" = true ↔ ∃ l, s.data = '/' :: l := by
  have hslash : ("/" : String).data = ['/'] := rfl
  constructor
  · intro h
    unfold strStarts at h
    rw [hslash] at h
    match hd : s.data with
    | [] => rw [hd] at h; exact absurd h (by decide)
    | c :: l =>
      rw [hd] at h
      simp [List.isPrefixOf] at h
      refine ⟨l, ?_⟩
      rw [← h]
  · rintro ⟨l, hl⟩
    unfold strStarts
    rw [hslash, hl]
    simp [List.isPrefixOf]

/-- Prepending `/` when the share lacks one always yields a string that
starts with `/` (the share normalization step of `getVolumeSource`). -/
theorem ensure_slash_starts (s : String) :
    strStarts (if !strStarts s "/" then "/" ++ s else s) "/" = true := by
  cases hs : strStarts s "/" with
  | true => simp [hs]
  | false =>
    simp only [hs, Bool.not_false, if_pos]
    rw [strStarts_slash_iff]
    refine ⟨s.data, ?_⟩
    rw [String.data_append]
    rfl

/-- The sub-path merge of `getVolumeSource` keeps the leading `/` of the
share: stripping one trailing `/` from a `/`-rooted share and joining
with `/` yields a `/`-rooted path. -/
theorem merged_starts (t u : String) (ht : strStarts t "/" = true) :
    strStarts (strTrimR t "/" ++ "/" ++ u) "/" = true := by
  have hsl : ("/" : String).data = ['/'] := rfl
  obtain ⟨l, hl⟩ := (strStarts_slash_iff t).mp ht
  rw [strStarts_slash_iff]
  unfold strTrimR
  cases he : strEnds t "/" with
  | false =>
    rw [if_neg (by simp [he])]
    refine ⟨l ++ '/' :: u.data, ?_⟩
    rw [String.data_append, String.data_append, hl, hsl]
    simp
  | true =>
    rw [if_pos rfl]
    cases l with
    | nil =>
      refine ⟨u.data, ?_⟩
      have hdata : (String.mk (List.take (t.data.length - ("/" : String).data.length) t.data)).data
          = ([] : List Char) := by
        rw [hl]; rfl
      rw [String.data_append, String.data_append, hdata, hsl]
      rfl
    | cons c l2 =>
      refine ⟨List.take l2.length (c :: l2) ++ '/' :: u.data, ?_⟩
      have hdata : (String.mk (List.take (t.data.length - ("/" : String).data.length) t.data)).data
          = '/' :: List.take l2.length (c :: l2) := by
        rw [hl, hsl]
        show List.take (('/' :: c :: l2).length - 1) ('/' :: c :: l2) = _
        have hlen : ('/' :: c :: l2).length - 1 = l2.length + 1 := by simp
        rw [hlen, List.take_succ_cons]
      rw [String.data_append, String.data_append, hdata, hsl]
      simp

/-! ## Claim theorems -/

/-- Claim C2: `validateVolumeCapability` accepts a capability descriptor exactly
when the descriptor is present, its access mode is present and one of the
five supported modes, and its access type is present and is the mount
type; every other descriptor (absent, absent mode, unsupported mode,
absent type, block type) is rejected. -/
theorem c2_capability_validator_iff (c : Option VolumeCapability) :
    validateVolumeCapability c = none ↔
      ∃ cap, c = some cap ∧
        (∃ m, cap.accessMode = some m ∧ isSupportedMode m = true) ∧
        (∃ flags, cap.accessType = some (.mount flags)) := by
  match c with
  | none => simp [validateVolumeCapability]
  | some cap =>
    match h1 : cap.accessMode with
    | none => simp [validateVolumeCapability, h1]
    | some m =>
      by_cases hm : isSupportedMode m
      · match h2 : cap.accessType with
        | none => simp [validateVolumeCapability, h1, hm, h2]
        | some (.mount flags) => simp [validateVolumeCapability, h1, hm, h2]
        | some .block => simp [validateVolumeCapability, h1, hm, h2]
      · simp only [Bool.not_eq_true] at hm
        simp [validateVolumeCapability, h1, hm]

/-- Claim C4: an unpublish request with non-empty volume ID and target path whose
target path does not exist (the mount-state query fails with a
not-exist error) returns success and performs no unmount and no
directory removal (an empty operation trace). -/
theorem c4_unpublish_absent_target (env : NodeEnv) (req : NodeUnpublishRequest)
    (h1 : req.volumeId ≠ "") (h2 : req.targetPath ≠ "")
    (h3 : env.checkMntRes = .error .notExist) :
    nodeUnpublishVolume env req = (.ok (), []) := by
  simp [nodeUnpublishVolume, h1, h2, h3]

/-- Witness for C4, at a concrete environment and request. -/
theorem c4_unpublish_absent_target_witness :
    nodeUnpublishVolume ⟨none, .error .notExist, none, none, none⟩ ⟨"vol-1", "/mnt/t"⟩ =
      (.ok (), []) :=
  c4_unpublish_absent_target _ _ (by decide) (by decide) rfl

/-- Claim C5: the explicit `subPath` parameter wins over the annotation-carried
sub-path: whenever the parameter is non-empty, `getSubPath` returns it
(whatever the annotation parser would say), the result does not depend
on the annotation parser at all, and the sub-path computation inlined
in `CreateVolume` agrees. -/
theorem c5_subpath_priority :
    (∀ (parseAnn : String → String) (ctx : Ctx),
      ctxGet ctx ParamSubPath ≠ "" → parseAnn (ctxGet ctx AnnotationsKey) ≠ "" →
      getSubPath parseAnn ctx = ctxGet ctx ParamSubPath) ∧
    (∀ (p1 p2 : String → String) (ctx : Ctx),
      ctxGet ctx ParamSubPath ≠ "" → getSubPath p1 ctx = getSubPath p2 ctx) ∧
    (∀ (parseAnn : String → String) (params : Ctx),
      ctxGet params ParamSubPath ≠ "" →
      createVolumeSubPath parseAnn params = ctxGet params ParamSubPath) := by
  refine ⟨?_, ?_, ?_⟩
  · intro parseAnn ctx h _
    simp [getSubPath, h]
  · intro p1 p2 ctx h
    simp [getSubPath, h]
  · intro parseAnn params h
    simp [createVolumeSubPath, h]

/-- Witness for C5: parameter `"priority-path"` beats an annotation blob
whose parser yields `"music"`. -/
theorem c5_subpath_priority_witness :
    getSubPath (fun _ => "music")
      [("subPath", "priority-path"), ("csi.storage.k8s.io/pvc/annotations", "\x7b\x7d")] =
      "priority-path" :=
  c5_subpath_priority.1 (fun _ => "music") _ (by decide) (by decide)

/-- Claim C10: `validateSubPath` rejects, with its traversal error, every
sub-path (within the length bound) whose lexical normalization, leading
slash stripped, begins with the two characters `..` — even when `..` is
merely a prefix of a longer first segment that names no parent
directory, as in `"..data"`. -/
theorem c10_dotdot_prefix_rejected :
    (∀ s : String, byteLen s ≤ maxSubPathLength →
      strStarts (strTrimL (filepathClean s) "/") ".." = true →
      validateSubPath s = some .traversal) ∧
    validateSubPath "..data" = some .traversal := by
  constructor
  · intro s hlen h
    by_cases hs : s = ""
    · subst hs; exact absurd h (by decide)
    · have hlen2 : ¬ maxSubPathLength < byteLen s := Nat.not_lt.mpr hlen
      have hcond : (strStarts (strTrimL (filepathClean s) "/") ".." ||
          strHas (strTrimL (filepathClean s) "/") "/..") = true :=
        Bool.or_eq_true_iff.mpr (Or.inl h)
      simp [validateSubPath, hs, hlen2, hcond]
  · decide

/-- Witness for C10, at the concrete input `"..data"`. -/
theorem c10_dotdot_prefix_rejected_witness :
    validateSubPath "..data" = some .traversal :=
  c10_dotdot_prefix_rejected.1 "..data" (by decide) (by decide)

/-- Claim C1: a sub-path whose lexical normalization (leading slash stripped)
starts with `..` or contains a `/../` sequence never passes
`validateSubPath`; `getVolumeSource` fails whenever the resolved
sub-path is such a string; and `CreateVolume` rejects any request whose
resolved sub-path is such a string with `InvalidArgument` — in
particular `subPath = "../../etc/passwd"` is rejected (the witness). -/
theorem c1_traversal_resolution_fails :
    (∀ s : String, cleanedHasDotDot s = true → validateSubPath s ≠ none) ∧
    (∀ (parseAnn : String → String) (ctx : Ctx),
      cleanedHasDotDot (getSubPath parseAnn ctx) = true →
      ∃ e, getVolumeSource parseAnn ctx = .error e) ∧
    (∀ (parseAnn : String → String) (req : CreateVolumeRequest),
      cleanedHasDotDot (createVolumeSubPath parseAnn req.parameters) = true →
      createVolume parseAnn req = .error .invalidArgument) := by
  refine ⟨validateSubPath_ne_none_of_dotdot, ?_, ?_⟩
  · intro parseAnn ctx h
    have hsub : getSubPath parseAnn ctx ≠ "" := by
      intro he; rw [he] at h; exact absurd h (by decide)
    by_cases h1 : ctxGet ctx ParamServer = ""
    · exact ⟨.serverRequired, by simp [getVolumeSource, h1]⟩
    · by_cases h2 : ctxGet ctx ParamShare = ""
      · exact ⟨.shareRequired, by simp [getVolumeSource, h1, h2]⟩
      · obtain ⟨e, he⟩ :=
          Option.ne_none_iff_exists'.mp (validateSubPath_ne_none_of_dotdot _ h)
        exact ⟨.invalidSubPath e, by simp [getVolumeSource, h1, h2, hsub, he]⟩
  · intro parseAnn req h
    have hsub : createVolumeSubPath parseAnn req.parameters ≠ "" := by
      intro he; rw [he] at h; exact absurd h (by decide)
    have hv : (validateSubPath (createVolumeSubPath parseAnn req.parameters)).isSome = true := by
      cases hvv : validateSubPath (createVolumeSubPath parseAnn req.parameters) with
      | none => exact absurd hvv (validateSubPath_ne_none_of_dotdot _ h)
      | some e => rfl
    unfold createVolume
    split
    · rfl
    split
    · rfl
    split
    · rfl
    dsimp only
    split
    · rfl
    split
    · rfl
    split
    · rfl
    rename_i hcond
    exact absurd ⟨hsub, hv⟩ hcond

/-- Witness for C1, at the concrete traversal attempt `"../../etc/passwd"`. -/
theorem c1_traversal_resolution_fails_witness :
    ∃ e, getVolumeSource (fun _ => "")
      [("server", "s1"), ("share", "/data"), ("subPath", "../../etc/passwd")] = .error e :=
  c1_traversal_resolution_fails.2.1 (fun _ => "") _ (by decide)

/-- Claim C3: publishing onto a target path that the mount-state query already
reports as a mount point is an idempotent no-op: for a valid request
(non-empty IDs, valid capability, resolvable volume source, directory
creation succeeding), publish succeeds and performs no mount, so two
successive publish calls on the same target both succeed and their
combined operation trace contains no mount at all. -/
theorem c3_publish_already_mounted_idempotent (parseAnn : String → String)
    (env : NodeEnv) (req : NodePublishRequest) (p : String × String)
    (h1 : req.volumeId ≠ "") (h2 : req.targetPath ≠ "")
    (h3 : validateVolumeCapability req.volumeCapability = none)
    (h4 : getVolumeSource parseAnn req.volumeContext = .ok p)
    (h5 : env.mkdirAllRes = none)
    (h6 : env.checkMntRes = .ok false) :
    (publishTwice parseAnn env req).1.1 = .ok () ∧
    (publishTwice parseAnn env req).1.2 = .ok () ∧
    (publishTwice parseAnn env req).2.all (fun a => !a.isMountFs) = true := by
  obtain ⟨server, share⟩ := p
  have hpub : nodePublishVolume parseAnn env req = (.ok (), [.mkdirAll req.targetPath]) := by
    simp [nodePublishVolume, h1, h2, h3, h4, h5, h6]
  simp [publishTwice, hpub, Action.isMountFs]

/-- Witness for C3, at a concrete environment whose mount-state query
reports the target as already mounted. -/
theorem c3_publish_already_mounted_idempotent_witness :
    (publishTwice (fun _ => "") ⟨none, .ok false, none, none, none⟩
      ⟨"vol-1", "/mnt/t", some ⟨some 5, some (.mount [])⟩,
        [("server", "s1"), ("share", "/data")], false⟩).1.1 = .ok () ∧
    (publishTwice (fun _ => "") ⟨none, .ok false, none, none, none⟩
      ⟨"vol-1", "/mnt/t", some ⟨some 5, some (.mount [])⟩,
        [("server", "s1"), ("share", "/data")], false⟩).1.2 = .ok () ∧
    (publishTwice (fun _ => "") ⟨none, .ok false, none, none, none⟩
      ⟨"vol-1", "/mnt/t", some ⟨some 5, some (.mount [])⟩,
        [("server", "s1"), ("share", "/data")], false⟩).2.all
      (fun a => !a.isMountFs) = true :=
  c3_publish_already_mounted_idempotent (fun _ => "") _ _ ("s1", "/data")
    (by decide) (by decide) (by decide) (by decide) rfl rfl

/-- Claim C6: when a non-empty sub-path is merged, the resolved path is the
(`/`-rooted) share with one trailing `/` stripped (if present), a single
joining `/`, and the sub-path with one leading `/` stripped (if
present); in particular share `"/data/"` with sub-path `"app3"` gives
`"/data/app3"` and share `"/data"` with sub-path `"/app2"` gives
`"/data/app2"`. -/
theorem c6_subpath_merge_normalization :
    (∀ (parseAnn : String → String) (ctx : Ctx),
      ctxGet ctx ParamServer ≠ "" →
      ctxGet ctx ParamShare ≠ "" →
      strStarts (ctxGet ctx ParamShare) "/" = true →
      getSubPath parseAnn ctx ≠ "" →
      validateSubPath (getSubPath parseAnn ctx) = none →
      getVolumeSource parseAnn ctx =
        .ok (ctxGet ctx ParamServer,
          strTrimR (ctxGet ctx ParamShare) "/" ++ "/" ++
            strTrimL (getSubPath parseAnn ctx) "/")) ∧
    getVolumeSource (fun _ => "") [("server", "s1"), ("share", "/data/"), ("subPath", "app3")] =
      .ok ("s1", "/data/app3") ∧
    getVolumeSource (fun _ => "") [("server", "s1"), ("share", "/data"), ("subPath", "/app2")] =
      .ok ("s1", "/data/app2") := by
  refine ⟨?_, by decide, by decide⟩
  intro parseAnn ctx h1 h2 hsw hsub hval
  simp [getVolumeSource, h1, h2, hsw, hsub, hval]

/-- Witness for C6, at share `"/data/"` and sub-path `"app3"`. -/
theorem c6_subpath_merge_normalization_witness :
    getVolumeSource (fun _ => "")
      [("server", "s1"), ("share", "/data/"), ("subPath", "app3")] =
      .ok ("s1",
        strTrimR "/data/" "/" ++ "/" ++
          strTrimL (getSubPath (fun _ => "")
            [("server", "s1"), ("share", "/data/"), ("subPath", "app3")]) "/") :=
  c6_subpath_merge_normalization.1 (fun _ => "") _
    (by decide) (by decide) (by decide) (by decide) (by decide)

/-- Claim C7: `getVolumeSource` fails whenever the `server` or the `share`
parameter is empty or absent, and on every success the returned share
path begins with `/` (one is prepended when the supplied share lacks
it). -/
theorem c7_resolver_requires_server_share_and_rooted :
    (∀ (parseAnn : String → String) (ctx : Ctx),
      ctxGet ctx ParamServer = "" →
      getVolumeSource parseAnn ctx = .error .serverRequired) ∧
    (∀ (parseAnn : String → String) (ctx : Ctx),
      ctxGet ctx ParamShare = "" →
      ∃ e, getVolumeSource parseAnn ctx = .error e) ∧
    (∀ (parseAnn : String → String) (ctx : Ctx) (p : String × String),
      getVolumeSource parseAnn ctx = .ok p → strStarts p.2 "/" = true) := by
  refine ⟨?_, ?_, ?_⟩
  · intro parseAnn ctx h1
    simp [getVolumeSource, h1]
  · intro parseAnn ctx h2
    by_cases h1 : ctxGet ctx ParamServer = ""
    · exact ⟨.serverRequired, by simp [getVolumeSource, h1]⟩
    · exact ⟨.shareRequired, by simp [getVolumeSource, h1, h2]⟩
  · intro parseAnn ctx p h
    by_cases h1 : ctxGet ctx ParamServer = ""
    · rw [getVolumeSource] at h; simp [h1] at h
    by_cases h2 : ctxGet ctx ParamShare = ""
    · rw [getVolumeSource] at h; simp [h1, h2] at h
    by_cases hsub : getSubPath parseAnn ctx = ""
    · rw [getVolumeSource] at h
      simp only [h1, h2, hsub, if_neg, ite_false, ne_eq, not_true_eq_false,
        not_false_eq_true, ite_true, Except.ok.injEq] at h
      subst h
      exact ensure_slash_starts _
    · cases hval : validateSubPath (getSubPath parseAnn ctx) with
      | some e =>
        rw [getVolumeSource] at h
        simp [h1, h2, hsub, hval] at h
      | none =>
        rw [getVolumeSource] at h
        simp only [h1, h2, hsub, hval, if_neg, ite_false, ne_eq, not_true_eq_false,
          not_false_eq_true, ite_true, Except.ok.injEq] at h
        subst h
        exact merged_starts _ _ (ensure_slash_starts _)

/-- Witness for C7, at a parameter mapping with no `server` key. -/
theorem c7_resolver_requires_server_share_and_rooted_witness :
    getVolumeSource (fun _ => "") [("share", "/data")] = .error .serverRequired :=
  c7_resolver_requires_server_share_and_rooted.1 (fun _ => "") _ (by decide)

/-- A `/`-rooted share of 4097 bytes: `getVolumeSource` never length-checks
the share, so it resolves successfully (the C8 counterexample input). -/
def bigShare : String := String.mk ('/' :: List.replicate 4096 'a')

/-- The byte length of `bigShare` is 4097. -/
theorem byteLen_bigShare : byteLen bigShare = 4097 := by
  show ((('/' :: List.replicate 4096 'a')).map Char.utf8Size).sum = 4097
  rw [List.map_cons, List.map_replicate]
  show (1 :: List.replicate 4096 1).sum = 4097
  rw [List.sum_cons, List.sum_const_nat]

/-- Counterexample to C8: a parameter mapping with a 4097-byte share on
which `getVolumeSource` succeeds, returning a path longer than 4096
bytes — the resolver length-checks only the sub-path, never the share
or the final path. -/
theorem c8_counterexample_long_share :
    getVolumeSource (fun _ => "") [("server", "s1"), ("share", bigShare)] =
      .ok ("s1", bigShare) ∧ maxSubPathLength < byteLen bigShare := by
  constructor
  · rfl
  · rw [byteLen_bigShare]; decide

/-- Claim C8 amended: on every successful resolution, the non-empty resolved
sub-path (the only length-checked component) is at most 4096 bytes; the
share itself, and hence the full returned path, is not bounded. -/
theorem c8_amended_subpath_bounded (parseAnn : String → String) (ctx : Ctx)
    (p : String × String)
    (h : getVolumeSource parseAnn ctx = .ok p)
    (hsub : getSubPath parseAnn ctx ≠ "") :
    byteLen (getSubPath parseAnn ctx) ≤ maxSubPathLength := by
  by_cases h1 : ctxGet ctx ParamServer = ""
  · rw [getVolumeSource] at h; simp [h1] at h
  by_cases h2 : ctxGet ctx ParamShare = ""
  · rw [getVolumeSource] at h; simp [h1, h2] at h
  cases hval : validateSubPath (getSubPath parseAnn ctx) with
  | some e =>
    rw [getVolumeSource] at h
    simp [h1, h2, hsub, hval] at h
  | none =>
    unfold validateSubPath at hval
    rw [if_neg hsub] at hval
    by_cases hlen : maxSubPathLength < byteLen (getSubPath parseAnn ctx)
    · rw [if_pos hlen] at hval; cases hval
    · exact Nat.not_lt.mp hlen

/-- Witness for the amended C8, at a concrete mapping with sub-path `"app"`. -/
theorem c8_amended_subpath_bounded_witness :
    byteLen (getSubPath (fun _ => "")
      [("server", "s1"), ("share", "/data"), ("subPath", "app")]) ≤ maxSubPathLength :=
  c8_amended_subpath_bounded (fun _ => "") _ ("s1", "/data/app") (by decide) (by decide)

/-- Counterexample to C9: during unpublish of an existing but not-mounted
target, a failing `os.Remove` of the stale directory (a non-not-exist
error in the environment) is silently discarded — the call still
returns success after attempting the removal, contradicting the claim
that such a failure surfaces an error. -/
theorem c9_counterexample_remove_failure_swallowed :
    (⟨none, .ok true, none, some .other, none⟩ : NodeEnv).removeRes = some .other ∧
    nodeUnpublishVolume ⟨none, .ok true, none, some .other, none⟩ ⟨"vol-1", "/mnt/t"⟩ =
      (.ok (), [.removePath "/mnt/t"]) :=
  ⟨rfl, by decide⟩

/-- Claim C9 amended: every failing OS operation during publish (directory
creation, mount-state query, mount) and during unpublish (mount-state
query, unmount cleanup) surfaces an `Internal` error, except the
documented idempotent no-ops (already-mounted publish, already-absent
unpublish target) and the removal of the stale directory during
unpublish of a not-mounted target, whose failure is only logged and the
call reports success. -/
theorem c9_amended_error_surfacing :
    (∀ (parseAnn : String → String) (env : NodeEnv) (req : NodePublishRequest)
        (p : String × String) (e : FsErr),
      req.volumeId ≠ "" → req.targetPath ≠ "" →
      validateVolumeCapability req.volumeCapability = none →
      getVolumeSource parseAnn req.volumeContext = .ok p →
      env.mkdirAllRes = some e →
      (nodePublishVolume parseAnn env req).1 = .error .internal) ∧
    (∀ (parseAnn : String → String) (env : NodeEnv) (req : NodePublishRequest)
        (p : String × String),
      req.volumeId ≠ "" → req.targetPath ≠ "" →
      validateVolumeCapability req.volumeCapability = none →
      getVolumeSource parseAnn req.volumeContext = .ok p →
      env.mkdirAllRes = none → env.checkMntRes = .error .other →
      (nodePublishVolume parseAnn env req).1 = .error .internal) ∧
    (∀ (parseAnn : String → String) (env : NodeEnv) (req : NodePublishRequest)
        (p : String × String) (e : FsErr),
      req.volumeId ≠ "" → req.targetPath ≠ "" →
      validateVolumeCapability req.volumeCapability = none →
      getVolumeSource parseAnn req.volumeContext = .ok p →
      env.mkdirAllRes = none →
      (env.checkMntRes = .ok true ∨ env.checkMntRes = .error .notExist) →
      env.mountRes = some e →
      (nodePublishVolume parseAnn env req).1 = .error .internal) ∧
    (∀ (env : NodeEnv) (req : NodeUnpublishRequest),
      req.volumeId ≠ "" → req.targetPath ≠ "" →
      env.checkMntRes = .error .other →
      (nodeUnpublishVolume env req).1 = .error .internal) ∧
    (∀ (env : NodeEnv) (req : NodeUnpublishRequest) (e : FsErr),
      req.volumeId ≠ "" → req.targetPath ≠ "" →
      env.checkMntRes = .ok false → env.cleanupRes = some e →
      (nodeUnpublishVolume env req).1 = .error .internal) ∧
    (∀ (env : NodeEnv) (req : NodeUnpublishRequest),
      req.volumeId ≠ "" → req.targetPath ≠ "" →
      env.checkMntRes = .ok true →
      (nodeUnpublishVolume env req).1 = .ok ()) := by
  refine ⟨?_, ?_, ?_, ?_, ?_, ?_⟩
  · intro parseAnn env req p e h1 h2 h3 h4 h5
    obtain ⟨server, share⟩ := p
    simp [nodePublishVolume, h1, h2, h3, h4, h5]
  · intro parseAnn env req p h1 h2 h3 h4 h5 h6
    obtain ⟨server, share⟩ := p
    simp [nodePublishVolume, h1, h2, h3, h4, h5, h6]
  · intro parseAnn env req p e h1 h2 h3 h4 h5 hchk h6
    obtain ⟨server, share⟩ := p
    rcases hchk with hchk | hchk <;>
      simp [nodePublishVolume, h1, h2, h3, h4, h5, h6, hchk]
  · intro env req h1 h2 h3
    simp [nodeUnpublishVolume, h1, h2, h3]
  · intro env req e h1 h2 h3 h4
    simp [nodeUnpublishVolume, h1, h2, h3, h4]
  · intro env req h1 h2 h3
    simp [nodeUnpublishVolume, h1, h2, h3]

/-- Witness for the amended C9: the lenient branch, at a concrete
not-mounted target. -/
theorem c9_amended_error_surfacing_witness :
    (nodeUnpublishVolume ⟨none, .ok true, none, none, none⟩ ⟨"vol-2", "/mnt/u"⟩).1 =
      .ok () :=
  c9_amended_error_surfacing.2.2.2.2.2 _ _ (by decide) (by decide) rfl

end NfsCsi
